import Mathlib

/-!
Verification of the Nearby Dart adapter (`connections/dart/nc_adapter_dart.cc`)
and the Nearby Share file handler (`sharing/nearby_file_handler.cc`).

The adapter is embedded shallowly: each exported operation is modelled as a
function producing the ordered list of observable actions it performs
(global-state writes, channel posts, engine invocations, latch waits), and each
listener callback is modelled as the message it posts (if any).  Machine
integers are modelled as `Int`; Dart ports as `Nat`; C strings as `String`;
byte buffers as `List Nat`.
-/

namespace NearbyAdapter

/-- Modelled from the spec: the enumerated status-code outcome space of the
engine (`NC_STATUS`, declared in `connections/c/nc_types.h`, which is not part
of the excerpt).  The spec requires at minimum success, generic error,
invalid-instance and unsupported-payload-type; the adapter source uses
`NC_STATUS_ERROR` and `NC_STATUS_PAYLOADUNKNOWN`.  The concrete numeric values
are an arbitrary injective assignment, since the header is unavailable. -/
inductive NC_STATUS
  | success
  | error
  | invalidInstance
  | payloadUnknown
  deriving DecidableEq, Repr

/-- Modelled from the spec: the integer value of a status code, as produced by
`static_cast<int64_t>(status)` in the adapter.  Injective; the particular
numbers stand in for the unavailable header's enumerator values. -/
def statusToInt64 : NC_STATUS → Int
  | .success => 0
  | .error => 1
  | .invalidInstance => 2
  | .payloadUnknown => 3

/-- A `Dart_CObject` message value: the structured message shapes the adapter
builds before posting (`Dart_CObject_kInt64`, `kString`, `kTypedData`,
`kArray`). -/
inductive DartCObject
  | int64 (v : Int)
  | str (s : String)
  | typedData (bytes : List Nat)
  | array (elements : List DartCObject)
  deriving Repr

/-- The connection-listener ports installed into
`current_connection_listener_dart` (fields of `ConnectionListenerDart`). -/
structure ConnectionListenerDart where
  initiated_dart_port : Nat
  accepted_dart_port : Nat
  rejected_dart_port : Nat
  disconnected_dart_port : Nat
  bandwidth_changed_dart_port : Nat
  deriving DecidableEq, Repr

/-- The discovery-listener ports installed into
`current_discovery_listener_dart` (fields of `DiscoveryListenerDart`). -/
structure DiscoveryListenerDart where
  found_dart_port : Nat
  lost_dart_port : Nat
  distance_changed_dart_port : Nat
  deriving DecidableEq, Repr

/-- The payload-listener ports installed into `current_payload_listener_dart`
(fields of `PayloadListenerDart`). -/
structure PayloadListenerDart where
  initial_byte_info_port : Nat
  initial_stream_info_port : Nat
  initial_file_info_port : Nat
  payload_progress_dart_port : Nat
  deriving DecidableEq, Repr

/-- Modelled from the spec: the medium argument of the bandwidth-changed
callback (`NC_MEDIUM`, declared in the unavailable `nc_types.h`).  The adapter
never reads it, so only distinguishable constructors matter. -/
inductive NC_MEDIUM
  | bluetooth
  | ble
  | wifiLan
  | wifiHotspot
  | webRtc
  deriving DecidableEq, Repr

/-- Modelled from the spec: the distance argument of the distance-changed
callback (`NC_DISTANCE_INFO`, declared in the unavailable `nc_types.h`).  The
adapter never reads it. -/
inductive NC_DISTANCE_INFO
  | veryClose
  | close
  | far
  | unknownDistance
  deriving DecidableEq, Repr

/-- The payload type tag (`NC_PAYLOAD_TYPE_*`). -/
inductive NC_PAYLOAD_TYPE
  | unknown
  | bytes
  | stream
  | file
  deriving DecidableEq, Repr

/-- An `NC_PAYLOAD` as read by the payload callback: the id, the type tag, and
the members of the content union the callback can access
(`content.bytes.content` with its size, `content.file.offset`,
`content.file.file_name`).  The byte buffer's `size` field is the length of
`bytes_content`. -/
structure NC_PAYLOAD where
  id : Int
  type : NC_PAYLOAD_TYPE
  bytes_content : List Nat
  file_offset : Int
  file_name : String
  deriving DecidableEq, Repr

/-- `ListenerRejectedCB(endpoint_id, status)`: builds a `kString` message
holding only the endpoint id and posts it to the rejected port.  The `status`
parameter is never written into the message. -/
def ListenerRejectedCB (listener : ConnectionListenerDart) (endpoint_id : String)
    (status : NC_STATUS) : Nat × DartCObject :=
  (listener.rejected_dart_port, DartCObject.str endpoint_id)

/-- `ListenerAcceptedCB(endpoint_id)`: posts the endpoint id string to the
accepted port. -/
def ListenerAcceptedCB (listener : ConnectionListenerDart)
    (endpoint_id : String) : Nat × DartCObject :=
  (listener.accepted_dart_port, DartCObject.str endpoint_id)

/-- `ListenerBandwidthChangedCB(endpoint_id, medium)`: posts the endpoint id
string to the bandwidth-changed port; the `medium` parameter is unused. -/
def ListenerBandwidthChangedCB (listener : ConnectionListenerDart)
    (endpoint_id : String) (medium : NC_MEDIUM) : Nat × DartCObject :=
  (listener.bandwidth_changed_dart_port, DartCObject.str endpoint_id)

/-- `ListenerEndpointDistanceChangedCB(endpoint_id, distance_info)`: posts the
endpoint id string to the distance-changed port; `distance_info` is explicitly
cast to void and unused. -/
def ListenerEndpointDistanceChangedCB (listener : DiscoveryListenerDart)
    (endpoint_id : String) (distance_info : NC_DISTANCE_INFO) : Nat × DartCObject :=
  (listener.distance_changed_dart_port, DartCObject.str endpoint_id)

/-- `ListenerPayloadCB(endpoint_id, payload)`: switches on the payload type
tag.  Bytes of size zero are dropped (early return, nothing posted); bytes of
positive size post `[endpoint id, payload id, byte buffer]`; stream posts
`[endpoint id, payload id]`; file posts `[endpoint id, payload id, offset,
file path]`; any other tag is dropped.  The result is the single posted
(port, message) pair, or `none` when the event is dropped. -/
def ListenerPayloadCB (listener : PayloadListenerDart) (endpoint_id : String)
    (payload : NC_PAYLOAD) : Option (Nat × DartCObject) :=
  let idObj := DartCObject.int64 payload.id
  match payload.type with
  | .bytes =>
    if payload.bytes_content.length = 0 then
      none
    else
      some (listener.initial_byte_info_port,
        DartCObject.array
          [DartCObject.str endpoint_id, idObj, DartCObject.typedData payload.bytes_content])
  | .stream =>
    some (listener.initial_stream_info_port,
      DartCObject.array [DartCObject.str endpoint_id, idObj])
  | .file =>
    some (listener.initial_file_info_port,
      DartCObject.array
        [DartCObject.str endpoint_id, idObj,
         DartCObject.int64 payload.file_offset, DartCObject.str payload.file_name])
  | .unknown => none

/-- `ListenerPayloadProgressCB(endpoint_id, payload_progress_info)`: posts
`[endpoint id, payload id, bytes transferred, total bytes, status]` to the
progress port. -/
def ListenerPayloadProgressCB (listener : PayloadListenerDart) (endpoint_id : String)
    (id : Int) (bytes_transferred : Int) (total_bytes : Int) (status : Int) :
    Nat × DartCObject :=
  (listener.payload_progress_dart_port,
    DartCObject.array
      [DartCObject.str endpoint_id, DartCObject.int64 id,
       DartCObject.int64 bytes_transferred, DartCObject.int64 total_bytes,
       DartCObject.int64 status])

/-- The engine entry points the adapter can invoke (`Nc*` functions of
`connections/c/nc.h`). -/
inductive EngineOp
  | NcEnableBleV2
  | NcStartAdvertising
  | NcStopAdvertising
  | NcStartDiscovery
  | NcStopDiscovery
  | NcRequestConnection
  | NcAcceptConnection
  | NcRejectConnection
  | NcDisconnectFromEndpoint
  | NcSendPayload
  deriving DecidableEq, Repr

/-- One observable action of an adapter operation, in program order: writing
the global `port`, installing a listener set into the corresponding global,
arming the shared `adapter_finished` latch with a fresh count-1 latch, posting
a message to a port, invoking an engine entry point (recording the instance
handle passed), or blocking on the latch (`finished.Await()`). -/
inductive AdapterAction
  | setPort (p : Nat)
  | installConnectionListener (l : ConnectionListenerDart)
  | installDiscoveryListener (l : DiscoveryListenerDart)
  | installPayloadListener (l : PayloadListenerDart)
  | armLatch
  | post (p : Nat) (msg : DartCObject)
  | engineCall (op : EngineOp) (inst : Option Nat)
  | awaitLatch
  deriving Repr

/-- The engine invocations in a trace, with the instance handle each was
given. -/
def engineCalls (trace : List AdapterAction) : List (EngineOp × Option Nat) :=
  trace.filterMap fun a =>
    match a with
    | .engineCall op inst => some (op, inst)
    | _ => none

/-- The (port, message) pairs a trace posts. -/
def postedMessages (trace : List AdapterAction) : List (Nat × DartCObject) :=
  trace.filterMap fun a =>
    match a with
    | .post p msg => some (p, msg)
    | _ => none

/-- `PostResult(result_cb, value)`: writes the global `port`, then posts the
int64-cast status value to `result_cb`. -/
def PostResult (result_cb : Nat) (value : NC_STATUS) : List AdapterAction :=
  [AdapterAction.setPort result_cb,
   AdapterAction.post result_cb (DartCObject.int64 (statusToInt64 value))]

/-- The payload type tag of the Dart-side payload struct
(`PAYLOAD_TYPE_UNKNOWN/STREAM/BYTE/FILE`). -/
inductive PayloadTypeDart
  | unknown
  | stream
  | byte
  | file
  deriving DecidableEq, Repr

/-- The Dart-side payload struct as read by `SendPayloadDart`: type tag, data
pointer (a string) and size. -/
structure PayloadDart where
  type : PayloadTypeDart
  data : String
  size : Int
  deriving DecidableEq, Repr

/-- The Dart-side connection request info: endpoint info plus the connection
listener ports to install. -/
structure ConnectionRequestInfoDart where
  endpoint_info : String
  connection_listener : ConnectionListenerDart
  deriving DecidableEq, Repr

/-- `EnableBleV2Dart(instance, enable, result_cb)`: writes the global `port`,
arms the latch, invokes `NcEnableBleV2` and blocks on the latch.  The source
performs no null-instance check in this operation.  (Population of the
engine-call arguments is abstracted into the `engineCall` action, which
records the instance handle; `enable` is forwarded to the engine.) -/
def EnableBleV2Dart (inst : Option Nat) (enable : Int) (result_cb : Nat) :
    List AdapterAction :=
  [AdapterAction.setPort result_cb,
   AdapterAction.armLatch,
   AdapterAction.engineCall EngineOp.NcEnableBleV2 inst,
   AdapterAction.awaitLatch]

/-- `StartAdvertisingDart`: on a null instance, `PostResult(result_cb,
NC_STATUS_ERROR)` and return; otherwise write the global `port`, install the
connection listener, build the advertising options and request info (elided
engine-call arguments), arm the latch, invoke `NcStartAdvertising`, block. -/
def StartAdvertisingDart (inst : Option Nat) (service_id : String)
    (info_dart : ConnectionRequestInfoDart) (result_cb : Nat) : List AdapterAction :=
  match inst with
  | none => PostResult result_cb NC_STATUS.error
  | some _ =>
    [AdapterAction.setPort result_cb,
     AdapterAction.installConnectionListener info_dart.connection_listener,
     AdapterAction.armLatch,
     AdapterAction.engineCall EngineOp.NcStartAdvertising inst,
     AdapterAction.awaitLatch]

/-- `StopAdvertisingDart`: null check, then port write, latch, engine call,
await. -/
def StopAdvertisingDart (inst : Option Nat) (result_cb : Nat) : List AdapterAction :=
  match inst with
  | none => PostResult result_cb NC_STATUS.error
  | some _ =>
    [AdapterAction.setPort result_cb,
     AdapterAction.armLatch,
     AdapterAction.engineCall EngineOp.NcStopAdvertising inst,
     AdapterAction.awaitLatch]

/-- `StartDiscoveryDart`: null check, then port write, discovery-listener
install, latch, engine call, await. -/
def StartDiscoveryDart (inst : Option Nat) (service_id : String)
    (listener_dart : DiscoveryListenerDart) (result_cb : Nat) : List AdapterAction :=
  match inst with
  | none => PostResult result_cb NC_STATUS.error
  | some _ =>
    [AdapterAction.setPort result_cb,
     AdapterAction.installDiscoveryListener listener_dart,
     AdapterAction.armLatch,
     AdapterAction.engineCall EngineOp.NcStartDiscovery inst,
     AdapterAction.awaitLatch]

/-- `StopDiscoveryDart`: null check, then port write, latch, engine call,
await. -/
def StopDiscoveryDart (inst : Option Nat) (result_cb : Nat) : List AdapterAction :=
  match inst with
  | none => PostResult result_cb NC_STATUS.error
  | some _ =>
    [AdapterAction.setPort result_cb,
     AdapterAction.armLatch,
     AdapterAction.engineCall EngineOp.NcStopDiscovery inst,
     AdapterAction.awaitLatch]

/-- `RequestConnectionDart`: null check, then port write, connection-listener
install, latch, engine call, await. -/
def RequestConnectionDart (inst : Option Nat) (endpoint_id : String)
    (info_dart : ConnectionRequestInfoDart) (result_cb : Nat) : List AdapterAction :=
  match inst with
  | none => PostResult result_cb NC_STATUS.error
  | some _ =>
    [AdapterAction.setPort result_cb,
     AdapterAction.installConnectionListener info_dart.connection_listener,
     AdapterAction.armLatch,
     AdapterAction.engineCall EngineOp.NcRequestConnection inst,
     AdapterAction.awaitLatch]

/-- `AcceptConnectionDart`: null check, then port write, payload-listener
install, latch, engine call, await. -/
def AcceptConnectionDart (inst : Option Nat) (endpoint_id : String)
    (listener_dart : PayloadListenerDart) (result_cb : Nat) : List AdapterAction :=
  match inst with
  | none => PostResult result_cb NC_STATUS.error
  | some _ =>
    [AdapterAction.setPort result_cb,
     AdapterAction.installPayloadListener listener_dart,
     AdapterAction.armLatch,
     AdapterAction.engineCall EngineOp.NcAcceptConnection inst,
     AdapterAction.awaitLatch]

/-- `RejectConnectionDart`: null check, then port write, latch, engine call,
await. -/
def RejectConnectionDart (inst : Option Nat) (endpoint_id : String)
    (result_cb : Nat) : List AdapterAction :=
  match inst with
  | none => PostResult result_cb NC_STATUS.error
  | some _ =>
    [AdapterAction.setPort result_cb,
     AdapterAction.armLatch,
     AdapterAction.engineCall EngineOp.NcRejectConnection inst,
     AdapterAction.awaitLatch]

/-- `DisconnectFromEndpointDart`: null check, then port write, latch, engine
call, await. -/
def DisconnectFromEndpointDart (inst : Option Nat) (endpoint_id : String)
    (result_cb : Nat) : List AdapterAction :=
  match inst with
  | none => PostResult result_cb NC_STATUS.error
  | some _ =>
    [AdapterAction.setPort result_cb,
     AdapterAction.armLatch,
     AdapterAction.engineCall EngineOp.NcDisconnectFromEndpoint inst,
     AdapterAction.awaitLatch]

/-- `SendPayloadDart(instance, endpoint_id, payload_dart, result_cb)`: null
check; then write the global `port`; then switch on the payload type.
Unknown and stream types call `PostResult(port, NC_STATUS_PAYLOADUNKNOWN)`
(with `port` just set to `result_cb`) and never touch the engine; byte and
file types build an `NC_PAYLOAD`, arm the latch, invoke `NcSendPayload` and
block. -/
def SendPayloadDart (inst : Option Nat) (endpoint_id : String)
    (payload_dart : PayloadDart) (result_cb : Nat) : List AdapterAction :=
  match inst with
  | none => PostResult result_cb NC_STATUS.error
  | some _ =>
    AdapterAction.setPort result_cb ::
    match payload_dart.type with
    | .unknown => PostResult result_cb NC_STATUS.payloadUnknown
    | .stream => PostResult result_cb NC_STATUS.payloadUnknown
    | .byte =>
      [AdapterAction.armLatch,
       AdapterAction.engineCall EngineOp.NcSendPayload inst,
       AdapterAction.awaitLatch]
    | .file =>
      [AdapterAction.armLatch,
       AdapterAction.engineCall EngineOp.NcSendPayload inst,
       AdapterAction.awaitLatch]

/-- The adapter's process-wide mutable state relevant to completion: the
global result `port` and the current count of the latch `adapter_finished`
points at. -/
structure AdapterGlobals where
  port : Nat
  latch : Nat
  deriving DecidableEq, Repr

/-- `CountDownLatch::CountDown()`: decrements the count, stopping at zero. -/
def countDownLatchCountDown (n : Nat) : Nat := n - 1

/-- `ResultCB(status)`: builds the one-field int64 status message, posts it to
the global `port` (the post's success is given by the `postSucceeds` oracle; a
failed post is only logged), and then — unconditionally — counts the latch
down.  Returns the new globals, the posted (port, message) pair, and the log
lines emitted. -/
def ResultCB (status : NC_STATUS) (postSucceeds : Bool) (g : AdapterGlobals) :
    AdapterGlobals × (Nat × DartCObject) × List String :=
  let msg := DartCObject.int64 (statusToInt64 status)
  let logs := if postSucceeds then [] else ["Posting message to port failed."]
  ({ g with latch := countDownLatchCountDown g.latch }, (g.port, msg), logs)

end NearbyAdapter

namespace NearbySharing

/-!
Embedding of `sharing/nearby_file_handler.cc`.  Filesystem paths are
`String`s.  The filesystem itself is an explicit parameter: for the open path
it maps a path to `none` (the path does not exist) or `some size`; for the
delete path it gives, per path, whether the path exists and the outcome of
each of the (at most two) `std::filesystem::remove` calls.
-/

/-- A `NearbyFileHandler::FileInfo`: the (size, path) pair recorded for each
successfully opened file. -/
structure FileInfo where
  size : Int
  file_path : String
  deriving DecidableEq, Repr

/-- The loop body of `DoOpenFiles`, with the `files` vector as accumulator:
for each path, return the empty vector if the path does not exist; read the
size and return the empty vector if it is negative; otherwise push the
(size, path) pair and continue.  `fs p = none` models a non-existent path and
`fs p = some size` an existing path of that size. -/
def DoOpenFilesLoop (fs : String → Option Int) :
    List String → List FileInfo → List FileInfo
  | [], files => files
  | file_path :: rest, files =>
    match fs file_path with
    | none => []
    | some size =>
      if size < 0 then []
      else DoOpenFilesLoop fs rest (files ++ [⟨size, file_path⟩])

/-- `DoOpenFiles(file_paths)`: runs the loop with an empty accumulator. -/
def DoOpenFiles (fs : String → Option Int) (file_paths : List String) :
    List FileInfo :=
  DoOpenFilesLoop fs file_paths []

/-- `NearbyFileHandler::OpenFiles` posts a task that calls `DoOpenFiles` and
hands its result to the callback; this is the value the callback receives. -/
def OpenFilesResult (fs : String → Option Int) (file_paths : List String) :
    List FileInfo :=
  DoOpenFiles fs file_paths

/-- `GenerateUniquePath(path)`: checks `NL_DCHECK(!path.empty())` and returns
the original path unchanged — uniqueness is delegated to Nearby
Connections. -/
def GenerateUniquePath (path : String) : String := path

/-- `NearbyFileHandler::GetUniquePath` posts a task that calls
`GenerateUniquePath` and hands its result to the callback; this is the value
the callback receives. -/
def GetUniquePathResult (file_path : String) : String :=
  GenerateUniquePath file_path

/-- The outcome of one underlying `std::filesystem::remove(file)` call:
either it returned normally with a boolean, or it threw a `std::exception`,
or it threw some other exception. -/
inductive FsRemoveOutcome
  | returned (removed : Bool)
  | threwStdException
  | threwOther
  deriving DecidableEq, Repr

/-- `RemoveFile(file)` (declared `noexcept`): calls
`std::filesystem::remove`; returns `false` if it returned `false`, `false` if
it threw a `std::exception`, `false` if it threw anything else, and `true`
only when it returned `true`. -/
def RemoveFile (outcome : FsRemoveOutcome) : Bool :=
  match outcome with
  | .returned removed => if !removed then false else true
  | .threwStdException => false
  | .threwOther => false

/-- The per-path filesystem behaviour seen by the delete task: whether the
path exists when checked, and the outcomes of the first and (if reached)
second `std::filesystem::remove` calls on it. -/
structure DeletePathBehaviour where
  present : Bool
  attempt1 : FsRemoveOutcome
  attempt2 : FsRemoveOutcome
  deriving DecidableEq, Repr

/-- One observable event of the delete task: a `SleepFor` of the given number
of seconds, one `RemoveFile` call on a path, or the final callback
invocation. -/
inductive DeleteEvent
  | sleepFor (seconds : Nat)
  | removeCall (path : String)
  | callbackInvoked
  deriving DecidableEq, Repr

/-- The initial grace period of the delete task (`absl::Seconds(1)`). -/
def initialGraceSeconds : Nat := 1

/-- The retry grace period of the delete task (`absl::Seconds(3)`). -/
def retryGraceSeconds : Nat := 3

/-- The loop body of the delete task for one path: skip if the path does not
exist; call `RemoveFile`; if it fails, sleep the retry grace period and call
`RemoveFile` once more (the two inner branches differ only in logging). -/
def deleteOnePath (fs : String → DeletePathBehaviour) (file_path : String) :
    List DeleteEvent :=
  let b := fs file_path
  if !b.present then []
  else if RemoveFile b.attempt1 then [DeleteEvent.removeCall file_path]
  else
    [DeleteEvent.removeCall file_path,
     DeleteEvent.sleepFor retryGraceSeconds,
     DeleteEvent.removeCall file_path]

/-- `NearbyFileHandler::DeleteFilesFromDisk(file_paths, callback)`: the posted
task sleeps the initial grace period, processes every path in order with the
per-path loop body, and finally invokes the callback. -/
def DeleteFilesFromDisk (fs : String → DeletePathBehaviour)
    (file_paths : List String) : List DeleteEvent :=
  DeleteEvent.sleepFor initialGraceSeconds ::
    (file_paths.flatMap (deleteOnePath fs) ++ [DeleteEvent.callbackInvoked])

/-- Counts the `RemoveFile` calls on a given path in an event trace. -/
def countRemoveCalls (path : String) (events : List DeleteEvent) : Nat :=
  events.countP fun e =>
    match e with
    | .removeCall q => q == path
    | _ => false

end NearbySharing

namespace NearbyAdapter

/-- The §4.2 table row for a connection-rejected event, following the spec's
words: the message carries the endpoint id (text) plus the status code. -/
def specRejectedMessage (endpoint_id : String) (status : NC_STATUS) : DartCObject :=
  DartCObject.array
    [DartCObject.str endpoint_id, DartCObject.int64 (statusToInt64 status)]

/-- C1: the claim states that every consumer-facing request operation,
enable-medium included, reacts to a null instance by posting an error status,
never invoking any engine function and never blocking.  The code violates this
for `EnableBleV2Dart`: invoked with a null instance it posts nothing, invokes
`NcEnableBleV2` passing the null handle, and its last action is blocking on
the completion latch. -/
theorem enableBleV2Dart_null_invokes_engine_and_blocks :
    engineCalls (EnableBleV2Dart none 1 7) = [(EngineOp.NcEnableBleV2, none)]
    ∧ postedMessages (EnableBleV2Dart none 1 7) = []
    ∧ (EnableBleV2Dart none 1 7).getLast? = some AdapterAction.awaitLatch :=
  ⟨rfl, rfl, rfl⟩

/-- C3: for a send-payload request with a non-null instance and payload type
stream or unknown, the operation invokes no engine function and posts exactly
the unsupported-payload-type status to the result channel. -/
theorem sendPayloadDart_stream_unknown_no_engine (inst : Option Nat)
    (endpoint_id : String) (payload_dart : PayloadDart) (result_cb : Nat)
    (hinst : inst ≠ none)
    (htype : payload_dart.type = PayloadTypeDart.stream
      ∨ payload_dart.type = PayloadTypeDart.unknown) :
    engineCalls (SendPayloadDart inst endpoint_id payload_dart result_cb) = []
    ∧ postedMessages (SendPayloadDart inst endpoint_id payload_dart result_cb)
      = [(result_cb, DartCObject.int64 (statusToInt64 NC_STATUS.payloadUnknown))] := by
  obtain ⟨i, rfl⟩ := Option.ne_none_iff_exists'.mp hinst
  have htr : SendPayloadDart (some i) endpoint_id payload_dart result_cb
      = [AdapterAction.setPort result_cb, AdapterAction.setPort result_cb,
         AdapterAction.post result_cb
           (DartCObject.int64 (statusToInt64 NC_STATUS.payloadUnknown))] := by
    rcases htype with h | h <;> simp [SendPayloadDart, h, PostResult]
  rw [htr]
  exact ⟨rfl, rfl⟩

/-- Witness for C3 at a concrete stream payload. -/
theorem sendPayloadDart_stream_unknown_no_engine_witness :
    engineCalls (SendPayloadDart (some 0) "EP" ⟨PayloadTypeDart.stream, "", 0⟩ 7) = []
    ∧ postedMessages (SendPayloadDart (some 0) "EP" ⟨PayloadTypeDart.stream, "", 0⟩ 7)
      = [(7, DartCObject.int64 (statusToInt64 NC_STATUS.payloadUnknown))] :=
  sendPayloadDart_stream_unknown_no_engine (some 0) "EP"
    ⟨PayloadTypeDart.stream, "", 0⟩ 7 (Option.some_ne_none 0) (Or.inl rfl)

/-- C4 counterexample: the claim states that the marshalled
connection-rejected message carries the endpoint id plus the status code, as
in the §4.2 table row.  At endpoint id "EP" with the generic error status, the
code posts a bare string holding only the endpoint id, not the two-field
message of the table row. -/
theorem listenerRejectedCB_message_lacks_status :
    (ListenerRejectedCB ⟨1, 2, 3, 4, 5⟩ "EP" NC_STATUS.error).2
      = DartCObject.str "EP"
    ∧ (ListenerRejectedCB ⟨1, 2, 3, 4, 5⟩ "EP" NC_STATUS.error).2
      ≠ specRejectedMessage "EP" NC_STATUS.error :=
  ⟨rfl, fun h => DartCObject.noConfusion h⟩

/-- C4 amended: marshalling a well-formed connection-rejected event produces a
message holding only the endpoint id text (the same shape as the
accepted/disconnected rows); the status code argument is not part of the
message, so the message is independent of it. -/
theorem listenerRejectedCB_endpoint_id_only (listener : ConnectionListenerDart)
    (endpoint_id : String) (s₁ s₂ : NC_STATUS) :
    ListenerRejectedCB listener endpoint_id s₁
      = ListenerRejectedCB listener endpoint_id s₂
    ∧ (ListenerRejectedCB listener endpoint_id s₁).2 = DartCObject.str endpoint_id
    ∧ (ListenerRejectedCB listener endpoint_id s₁).1 = listener.rejected_dart_port :=
  ⟨rfl, rfl, rfl⟩

/-- C5: the completion callback counts the one-shot latch down exactly once
whether the post to the result channel succeeds or fails; in particular, from
the armed count of 1 the latch always reaches 0, so the blocked caller
unblocks. -/
theorem resultCB_always_counts_down (status : NC_STATUS) (g : AdapterGlobals) :
    ((ResultCB status true g).1.latch = g.latch - 1
      ∧ (ResultCB status false g).1.latch = g.latch - 1)
    ∧ (∀ postSucceeds : Bool,
        (ResultCB status postSucceeds { g with latch := 1 }).1.latch = 0)
    ∧ (∀ postSucceeds : Bool,
        (ResultCB status postSucceeds g).2.1
          = (g.port, DartCObject.int64 (statusToInt64 status))) :=
  ⟨⟨rfl, rfl⟩, fun _ => rfl, fun _ => rfl⟩

/-- C9: the marshalled distance-changed and bandwidth-changed messages depend
only on the endpoint id: two invocations with the same endpoint id and
installed listener but different medium (respectively distance-info) arguments
post identical messages. -/
theorem bandwidth_distance_messages_ignore_argument
    (connL : ConnectionListenerDart) (discL : DiscoveryListenerDart)
    (endpoint_id : String) (m₁ m₂ : NC_MEDIUM) (d₁ d₂ : NC_DISTANCE_INFO)
    (hm : m₁ ≠ m₂) (hd : d₁ ≠ d₂) :
    ListenerBandwidthChangedCB connL endpoint_id m₁
      = ListenerBandwidthChangedCB connL endpoint_id m₂
    ∧ ListenerEndpointDistanceChangedCB discL endpoint_id d₁
      = ListenerEndpointDistanceChangedCB discL endpoint_id d₂ :=
  ⟨rfl, rfl⟩

/-- Witness for C9 at concrete distinct mediums and distances. -/
theorem bandwidth_distance_messages_ignore_argument_witness :
    ListenerBandwidthChangedCB ⟨1, 2, 3, 4, 5⟩ "EP" NC_MEDIUM.bluetooth
      = ListenerBandwidthChangedCB ⟨1, 2, 3, 4, 5⟩ "EP" NC_MEDIUM.ble
    ∧ ListenerEndpointDistanceChangedCB ⟨1, 2, 3⟩ "EP" NC_DISTANCE_INFO.close
      = ListenerEndpointDistanceChangedCB ⟨1, 2, 3⟩ "EP" NC_DISTANCE_INFO.far :=
  bandwidth_distance_messages_ignore_argument ⟨1, 2, 3, 4, 5⟩ ⟨1, 2, 3⟩ "EP"
    NC_MEDIUM.bluetooth NC_MEDIUM.ble NC_DISTANCE_INFO.close NC_DISTANCE_INFO.far
    (by decide) (by decide)

/-- C2: for an incoming bytes payload, a zero-length buffer produces no
posted message (the event is dropped), while a length of at least one produces
exactly one posted message whose fields are, in order, the endpoint id, the
payload id, and a byte buffer of exactly that length. -/
theorem listenerPayloadCB_bytes_length_discipline (listener : PayloadListenerDart)
    (endpoint_id : String) (payload : NC_PAYLOAD)
    (htype : payload.type = NC_PAYLOAD_TYPE.bytes) :
    (payload.bytes_content.length = 0 →
      ListenerPayloadCB listener endpoint_id payload = none)
    ∧ (1 ≤ payload.bytes_content.length →
        ∃ buffer,
          ListenerPayloadCB listener endpoint_id payload
            = some (listener.initial_byte_info_port,
                DartCObject.array
                  [DartCObject.str endpoint_id, DartCObject.int64 payload.id,
                   DartCObject.typedData buffer])
          ∧ buffer.length = payload.bytes_content.length) := by
  constructor
  · intro h0
    simp [ListenerPayloadCB, htype, h0]
  · intro hpos
    refine ⟨payload.bytes_content, ?_, rfl⟩
    have hne : ¬ payload.bytes_content.length = 0 := by omega
    simp [ListenerPayloadCB, htype, hne]

/-- Witness for C2 at a concrete two-byte payload. -/
theorem listenerPayloadCB_bytes_length_discipline_witness :
    ∃ buffer,
      ListenerPayloadCB ⟨10, 11, 12, 13⟩ "EP"
          ⟨5, NC_PAYLOAD_TYPE.bytes, [2, 3], 0, ""⟩
        = some (10,
            DartCObject.array
              [DartCObject.str "EP", DartCObject.int64 5,
               DartCObject.typedData buffer])
      ∧ buffer.length = ([2, 3] : List Nat).length :=
  (listenerPayloadCB_bytes_length_discipline ⟨10, 11, 12, 13⟩ "EP"
    ⟨5, NC_PAYLOAD_TYPE.bytes, [2, 3], 0, ""⟩ rfl).2 (by decide)

end NearbyAdapter

namespace NearbySharing

/-- C8: the unique-path generation delivers exactly the input path unchanged
for every non-empty path: it is the identity transform. -/
theorem getUniquePath_identity (file_path : String) (h : file_path ≠ "") :
    GetUniquePathResult file_path = file_path := rfl

/-- Witness for C8 at a concrete non-empty path. -/
theorem getUniquePath_identity_witness : GetUniquePathResult "a.txt" = "a.txt" :=
  getUniquePath_identity "a.txt" (by decide)

/-- A path fails the open step when it does not exist or its size is
unreadable (read as a negative value). -/
def openFails (fs : String → Option Int) (file_path : String) : Prop :=
  fs file_path = none ∨ ∃ size, fs file_path = some size ∧ size < 0

/-- C6: if any single path in the batch fails the open step, `OpenFiles`
delivers the empty list to its callback — entries for paths that were readable
before the failing one are discarded. -/
theorem openFiles_whole_batch_aborts (fs : String → Option Int)
    (file_paths : List String)
    (h : ∃ p ∈ file_paths, openFails fs p) :
    OpenFilesResult fs file_paths = [] := by
  obtain ⟨p, hp, hbad⟩ := h
  suffices hloop : ∀ files, DoOpenFilesLoop fs file_paths files = [] from hloop []
  induction file_paths with
  | nil => cases hp
  | cons q rest ih =>
    intro files
    rcases List.mem_cons.mp hp with heq | hmem
    · subst heq
      rcases hbad with hnone | ⟨s, hsome, hneg⟩
      · simp [DoOpenFilesLoop, hnone]
      · simp only [DoOpenFilesLoop, hsome]
        rw [if_pos hneg]
    · cases hq : fs q with
      | none => simp [DoOpenFilesLoop, hq]
      | some s =>
        simp only [DoOpenFilesLoop, hq]
        by_cases hs : s < 0
        · rw [if_pos hs]
        · rw [if_neg hs]
          exact ih hmem _

/-- An example filesystem for the open batch: "a" exists with size 5, every
other path is absent. -/
def fsOpenExample : String → Option Int :=
  fun p => match p with
  | "a" => some 5
  | _ => none

/-- Witness for C6: a batch whose first path is readable and whose second is
absent opens to the empty list. -/
theorem openFiles_whole_batch_aborts_witness :
    OpenFilesResult fsOpenExample ["a", "b"] = [] :=
  openFiles_whole_batch_aborts fsOpenExample ["a", "b"]
    ⟨"b", by simp, Or.inl rfl⟩

/-- C7: the delete task first sleeps the initial grace period; then, for each
path in order: an absent path is skipped with no remove call; a present path
whose first remove succeeds gets exactly one remove call; a present path whose
first remove fails gets a second remove call only after the longer grace
period; no path ever gets more than two remove calls; and every present path
is attempted no matter how the other paths fare (a failure never aborts the
remaining paths). -/
theorem deleteFiles_retry_discipline (fs : String → DeletePathBehaviour)
    (file_paths : List String) :
    (DeleteFilesFromDisk fs file_paths).head?
      = some (DeleteEvent.sleepFor initialGraceSeconds)
    ∧ initialGraceSeconds < retryGraceSeconds
    ∧ (∀ p, (fs p).present = false → deleteOnePath fs p = [])
    ∧ (∀ p, (fs p).present = true → RemoveFile (fs p).attempt1 = true →
        deleteOnePath fs p = [DeleteEvent.removeCall p])
    ∧ (∀ p, (fs p).present = true → RemoveFile (fs p).attempt1 = false →
        deleteOnePath fs p
          = [DeleteEvent.removeCall p, DeleteEvent.sleepFor retryGraceSeconds,
             DeleteEvent.removeCall p])
    ∧ (∀ p, countRemoveCalls p (deleteOnePath fs p) ≤ 2)
    ∧ (∀ p ∈ file_paths, (fs p).present = true →
        DeleteEvent.removeCall p ∈ DeleteFilesFromDisk fs file_paths) := by
  refine ⟨rfl, by decide, ?_, ?_, ?_, ?_, ?_⟩
  · intro p hp
    simp [deleteOnePath, hp]
  · intro p hp h1
    simp [deleteOnePath, hp, h1]
  · intro p hp h1
    simp [deleteOnePath, hp, h1]
  · intro p
    by_cases hp : (fs p).present
    · by_cases h1 : RemoveFile (fs p).attempt1
      · simp [deleteOnePath, hp, h1, countRemoveCalls]
      · simp [deleteOnePath, hp, h1, countRemoveCalls]
    · simp [deleteOnePath, Bool.of_not_eq_true hp, countRemoveCalls]
  · intro p hp hpres
    have hone : DeleteEvent.removeCall p ∈ deleteOnePath fs p := by
      by_cases h1 : RemoveFile (fs p).attempt1
      · simp [deleteOnePath, hpres, h1]
      · simp [deleteOnePath, hpres, h1]
    have hmem : DeleteEvent.removeCall p ∈ file_paths.flatMap (deleteOnePath fs) :=
      List.mem_flatMap.mpr ⟨p, hp, hone⟩
    exact List.mem_cons_of_mem _ (List.mem_append.mpr (Or.inl hmem))

/-- An example filesystem behaviour for the delete task: "x" exists and its
first remove fails while its second succeeds; "y" is absent; everything else
deletes on the first try. -/
def fsDeleteExample : String → DeletePathBehaviour :=
  fun p => match p with
  | "x" => ⟨true, FsRemoveOutcome.returned false, FsRemoveOutcome.returned true⟩
  | "y" => ⟨false, FsRemoveOutcome.returned true, FsRemoveOutcome.returned true⟩
  | _ => ⟨true, FsRemoveOutcome.returned true, FsRemoveOutcome.returned true⟩

/-- Witness for C7: the path whose first remove fails is retried exactly once
after the longer grace period, and it is attempted even though another path is
in the batch. -/
theorem deleteFiles_retry_discipline_witness :
    deleteOnePath fsDeleteExample "x"
      = [DeleteEvent.removeCall "x", DeleteEvent.sleepFor retryGraceSeconds,
         DeleteEvent.removeCall "x"]
    ∧ DeleteEvent.removeCall "x" ∈ DeleteFilesFromDisk fsDeleteExample ["x", "y"] :=
  ⟨(deleteFiles_retry_discipline fsDeleteExample ["x", "y"]).2.2.2.2.1 "x"
      (by decide) (by decide),
   (deleteFiles_retry_discipline fsDeleteExample ["x", "y"]).2.2.2.2.2.2 "x"
      (by simp) (by decide)⟩

/-- C10: the single-file removal helper is a total boolean function of the
underlying remove outcome — its result is always `true` or `false` (no
exception escapes) — and it returns `true` exactly when the underlying
filesystem remove returned `true`, returning `false` both when the file was
not removed and when the remove threw any exception. -/
theorem removeFile_total_and_exact (outcome : FsRemoveOutcome) :
    (RemoveFile outcome = true ∨ RemoveFile outcome = false)
    ∧ (RemoveFile outcome = true ↔ outcome = FsRemoveOutcome.returned true) := by
  cases outcome with
  | returned removed => cases removed <;> decide
  | threwStdException => decide
  | threwOther => decide

end NearbySharing



